import Mathlib

/-!
Verification of the `my_ptr` smart-pointer library
(`include/detail/control_block.hpp`, `include/shared_ptr.hpp`,
`include/weak_ptr.hpp`, `include/unique_ptr.hpp`, `include/memory.hpp`).

Modelling conventions.  The library's operations are synchronous and
non-blocking; we embed them with sequential (interleaving) semantics, so a
`compare_exchange_weak` loop that can only fail under concurrent contention
commits on its first attempt.  The two `std::atomic<size_t>` reference
counters are modelled as unbounded natural numbers: every claim under study
is about the logical counting protocol, and a `size_t` wrap would need
2^64 simultaneously live handles.  Calls to the virtual `dispose()` and
`destroy()` hooks are recorded in ghost fields (`disposeCount`,
`destroyCount`, `destroyBeforeDispose`) so that at-most-once and ordering
properties become statements about the final state.
-/

namespace MyPtr

/-- State of one `control_block_base` (control_block.hpp, lines 15-64),
instrumented with ghost event counters for `dispose()` / `destroy()`. -/
structure CBState where
  shared_count : Nat
  weak_count : Nat
  /-- ghost: how many times `dispose()` has been invoked -/
  disposeCount : Nat
  /-- ghost: how many times `destroy()` has been invoked -/
  destroyCount : Nat
  /-- ghost: set if some `destroy()` ran while `disposeCount = 0` -/
  destroyBeforeDispose : Bool
  deriving Repr, DecidableEq

/-- `control_block_base()` initialises `shared_count_(1), weak_count_(1)`. -/
def CBState.init : CBState :=
  { shared_count := 1, weak_count := 1, disposeCount := 0, destroyCount := 0,
    destroyBeforeDispose := false }

/-- Ghost effect of the virtual `dispose()` call. -/
def dispose (s : CBState) : CBState :=
  { s with disposeCount := s.disposeCount + 1 }

/-- Ghost effect of the virtual `destroy()` call (both concrete blocks do
`delete this`); records whether it ran before any `dispose()`. -/
def destroy (s : CBState) : CBState :=
  { s with destroyCount := s.destroyCount + 1,
           destroyBeforeDispose :=
             s.destroyBeforeDispose || decide (s.disposeCount = 0) }

/-- `add_shared_ref`: `shared_count_.fetch_add(1)`. -/
def add_shared_ref (s : CBState) : CBState :=
  { s with shared_count := s.shared_count + 1 }

/-- `add_weak_ref`: `weak_count_.fetch_add(1)`. -/
def add_weak_ref (s : CBState) : CBState :=
  { s with weak_count := s.weak_count + 1 }

/-- `release_weak`: `fetch_sub(1)`; if the pre-decrement value was 1,
call `destroy()`. -/
def release_weak (s : CBState) : CBState :=
  let pre := s.weak_count
  let s' := { s with weak_count := s.weak_count - 1 }
  if pre = 1 then destroy s' else s'

/-- `release_shared`: `fetch_sub(1)`; if the pre-decrement value was 1,
call `dispose()` then `release_weak()`. -/
def release_shared (s : CBState) : CBState :=
  let pre := s.shared_count
  let s' := { s with shared_count := s.shared_count - 1 }
  if pre = 1 then release_weak (dispose s') else s'

/-- `try_add_shared_ref`: load `shared_count_`; while nonzero, CAS to
value+1.  Sequentially the CAS commits on the first attempt, so the loop
denotes: fail iff the loaded value is zero, else increment by one. -/
def try_add_shared_ref (s : CBState) : Bool × CBState :=
  let count := s.shared_count
  if count = 0 then (false, s)
  else (true, { s with shared_count := count + 1 })

/-- `use_count`: relaxed load of `shared_count_`. -/
def use_count (s : CBState) : Nat := s.shared_count

/-! ### The control-block operation protocol (claim C1) -/

/-- The five counter operations a handle can drive on a control block. -/
inductive CBOp where
  | addStrong
  | releaseStrong
  | addWeak
  | releaseWeak
  | tryAddStrong
  deriving Repr, DecidableEq

/-- One protocol step: which member function the operation invokes. -/
def step (s : CBState) : CBOp → CBState
  | .addStrong => add_shared_ref s
  | .releaseStrong => release_shared s
  | .addWeak => add_weak_ref s
  | .releaseWeak => release_weak s
  | .tryAddStrong => (try_add_shared_ref s).2

/-- An operation is enabled when releases have not outrun prior
acquisitions: a strong acquire/release needs a live strong holder; a weak
acquire needs some live handle; an external `release_weak` needs a weak
holder beyond the implicit weak reference held by the strong group
(present exactly while `shared_count ≥ 1`); an upgrade attempt needs a
live weak holder. -/
def enabled (s : CBState) : CBOp → Bool
  | .addStrong => 1 ≤ s.shared_count
  | .releaseStrong => 1 ≤ s.shared_count
  | .addWeak => 1 ≤ s.weak_count
  | .releaseWeak => (if 1 ≤ s.shared_count then 2 else 1) ≤ s.weak_count
  | .tryAddStrong => 1 ≤ s.weak_count

/-- A run is well formed when every operation is enabled in the state in
which it executes. -/
def wfRun : CBState → List CBOp → Bool
  | _, [] => true
  | s, op :: rest => enabled s op && wfRun (step s op) rest

/-- Execute a sequence of operations. -/
def run (s : CBState) (ops : List CBOp) : CBState :=
  ops.foldl step s

/-- Inductive invariant of a control block's lifetime: either live
(nothing disposed, strong group holds its implicit weak reference),
disposed but not destroyed (weak observers may remain), or fully torn
down.  In all three phases `dispose()` and `destroy()` have each fired at
most once and never in the wrong order. -/
def SafeInv (s : CBState) : Prop :=
  (s.disposeCount = 0 ∧ s.destroyCount = 0 ∧ 1 ≤ s.shared_count ∧
     1 ≤ s.weak_count ∧ s.destroyBeforeDispose = false) ∨
  (s.disposeCount = 1 ∧ s.destroyCount = 0 ∧ s.shared_count = 0 ∧
     1 ≤ s.weak_count ∧ s.destroyBeforeDispose = false) ∨
  (s.disposeCount = 1 ∧ s.destroyCount = 1 ∧ s.shared_count = 0 ∧
     s.weak_count = 0 ∧ s.destroyBeforeDispose = false)

theorem safeInv_init : SafeInv CBState.init := by
  simp [SafeInv, CBState.init]

theorem safeInv_step {s : CBState} {op : CBOp} (hinv : SafeInv s)
    (hen : enabled s op = true) : SafeInv (step s op) := by
  cases op with
  | addStrong =>
    simp only [enabled, decide_eq_true_eq] at hen
    rcases hinv with ⟨h1, h2, h3, h4, h5⟩ | ⟨h1, h2, h3, h4, h5⟩ | ⟨h1, h2, h3, h4, h5⟩
    · left
      simp [step, add_shared_ref, h1, h2, h5]
      omega
    · omega
    · omega
  | releaseStrong =>
    simp only [enabled, decide_eq_true_eq] at hen
    rcases hinv with ⟨h1, h2, h3, h4, h5⟩ | ⟨h1, h2, h3, h4, h5⟩ | ⟨h1, h2, h3, h4, h5⟩
    · by_cases hs : s.shared_count = 1
      · by_cases hw : s.weak_count = 1
        · right; right
          simp [step, release_shared, release_weak, dispose, destroy, hs, hw, h1, h2, h5]
        · right; left
          simp [step, release_shared, release_weak, dispose, destroy, hs, hw, h1, h2, h5]
          omega
      · left
        simp [step, release_shared, hs, h1, h2, h5]
        omega
    · omega
    · omega
  | addWeak =>
    simp only [enabled, decide_eq_true_eq] at hen
    rcases hinv with ⟨h1, h2, h3, h4, h5⟩ | ⟨h1, h2, h3, h4, h5⟩ | ⟨h1, h2, h3, h4, h5⟩
    · left
      simp [step, add_weak_ref, h1, h2, h5]
      omega
    · right; left
      simp [step, add_weak_ref, h1, h2, h3, h5]
    · omega
  | releaseWeak =>
    simp only [enabled, decide_eq_true_eq] at hen
    rcases hinv with ⟨h1, h2, h3, h4, h5⟩ | ⟨h1, h2, h3, h4, h5⟩ | ⟨h1, h2, h3, h4, h5⟩
    · rw [if_pos h3] at hen
      have hw : ¬ s.weak_count = 1 := by omega
      left
      simp [step, release_weak, hw, h1, h2, h5]
      omega
    · rw [h3] at hen
      norm_num at hen
      by_cases hw : s.weak_count = 1
      · right; right
        simp [step, release_weak, destroy, hw, h1, h2, h3, h5]
      · right; left
        simp [step, release_weak, hw, h1, h2, h3, h5]
        omega
    · rw [h3] at hen
      norm_num at hen
      omega
  | tryAddStrong =>
    by_cases hs : s.shared_count = 0
    · simpa [step, try_add_shared_ref, hs] using hinv
    · rcases hinv with ⟨h1, h2, h3, h4, h5⟩ | ⟨h1, h2, h3, h4, h5⟩ | ⟨h1, h2, h3, h4, h5⟩
      · left
        simp [step, try_add_shared_ref, hs, h1, h2, h4, h5]
      · exact absurd h3 hs
      · exact absurd h3 hs

theorem safeInv_run {s : CBState} {ops : List CBOp} (hinv : SafeInv s)
    (hwf : wfRun s ops = true) : SafeInv (run s ops) := by
  induction ops generalizing s with
  | nil => exact hinv
  | cons op rest ih =>
    simp only [wfRun, Bool.and_eq_true] at hwf
    exact ih (safeInv_step hinv hwf.1) hwf.2

theorem wfRun_append_left {s : CBState} {pre suf : List CBOp}
    (hwf : wfRun s (pre ++ suf) = true) : wfRun s pre = true := by
  induction pre generalizing s with
  | nil => rfl
  | cons op rest ih =>
    simp only [List.cons_append, wfRun, Bool.and_eq_true] at hwf ⊢
    exact ⟨hwf.1, ih hwf.2⟩

theorem safeInv_bounds {s : CBState} (h : SafeInv s) :
    s.disposeCount ≤ 1 ∧ s.destroyCount ≤ 1 ∧ s.destroyBeforeDispose = false := by
  rcases h with ⟨h1, h2, _, _, h5⟩ | ⟨h1, h2, _, _, h5⟩ | ⟨h1, h2, _, _, h5⟩ <;>
    simp [h1, h2, h5]

/-- **C1**: over any well-formed operation sequence from a freshly
constructed control block (strong = weak = 1), the `release_shared` that
observes pre-decrement strong value 1 invokes `dispose()` and then
`release_weak()`; and at every point of the run, `dispose()` has fired at
most once, `destroy()` ("destroy-self") has fired at most once, and
`destroy()` never fired before `dispose()`. -/
theorem c1_teardown_protocol (ops : List CBOp)
    (hwf : wfRun CBState.init ops = true) :
    (∀ s : CBState, s.shared_count = 1 →
        release_shared s = release_weak (dispose { s with shared_count := 0 })) ∧
    (∀ pre suf : List CBOp, ops = pre ++ suf →
        (run CBState.init pre).disposeCount ≤ 1 ∧
        (run CBState.init pre).destroyCount ≤ 1 ∧
        (run CBState.init pre).destroyBeforeDispose = false) := by
  constructor
  · intro s hs
    simp [release_shared, hs]
  · intro pre suf hsplit
    subst hsplit
    exact safeInv_bounds (safeInv_run safeInv_init (wfRun_append_left hwf))

/-- Witness for C1: a concrete well-formed lifetime — one extra weak
handle, one extra strong handle, both strong releases (disposing once), a
failed upgrade, and the final weak release (destroying once). -/
theorem c1_teardown_protocol_witness :
    wfRun CBState.init [CBOp.addWeak, CBOp.addStrong, CBOp.releaseStrong,
        CBOp.releaseStrong, CBOp.tryAddStrong, CBOp.releaseWeak] = true ∧
    (run CBState.init [CBOp.addWeak, CBOp.addStrong, CBOp.releaseStrong,
        CBOp.releaseStrong, CBOp.tryAddStrong, CBOp.releaseWeak]).disposeCount ≤ 1 ∧
    (run CBState.init [CBOp.addWeak, CBOp.addStrong, CBOp.releaseStrong,
        CBOp.releaseStrong, CBOp.tryAddStrong, CBOp.releaseWeak]).destroyCount ≤ 1 ∧
    (run CBState.init [CBOp.addWeak, CBOp.addStrong, CBOp.releaseStrong,
        CBOp.releaseStrong, CBOp.tryAddStrong, CBOp.releaseWeak]).destroyBeforeDispose = false :=
  ⟨by decide,
   (c1_teardown_protocol [CBOp.addWeak, CBOp.addStrong, CBOp.releaseStrong,
        CBOp.releaseStrong, CBOp.tryAddStrong, CBOp.releaseWeak] (by decide)).2
     [CBOp.addWeak, CBOp.addStrong, CBOp.releaseStrong,
        CBOp.releaseStrong, CBOp.tryAddStrong, CBOp.releaseWeak] [] (by simp)⟩

/-- **C2**: `try_add_shared_ref` fails iff the observed strong count is
zero; on success the strong count is incremented by exactly one; on
failure the state is untouched, so the count never moves from 0 to 1 (no
resurrection of a disposed object). -/
theorem c2_try_add_strong_cas (s : CBState) :
    ((try_add_shared_ref s).1 = false ↔ s.shared_count = 0) ∧
    ((try_add_shared_ref s).1 = true →
        (try_add_shared_ref s).2.shared_count = s.shared_count + 1) ∧
    ((try_add_shared_ref s).1 = false → (try_add_shared_ref s).2 = s) ∧
    (s.shared_count = 0 → (try_add_shared_ref s).2.shared_count = 0) := by
  by_cases hs : s.shared_count = 0 <;> simp [try_add_shared_ref, hs]

/-- Witness for C2: upgrading a live block (count 1) succeeds and yields
count 2; the failure conjuncts are exercised on a disposed block. -/
theorem c2_try_add_strong_cas_witness :
    ((try_add_shared_ref CBState.init).1 = true ∧
      (try_add_shared_ref CBState.init).2.shared_count =
        CBState.init.shared_count + 1) ∧
    ((try_add_shared_ref (dispose { CBState.init with shared_count := 0 })).1 = false ∧
      (try_add_shared_ref (dispose { CBState.init with shared_count := 0 })).2 =
        dispose { CBState.init with shared_count := 0 }) :=
  ⟨⟨by decide, (c2_try_add_strong_cas CBState.init).2.1 (by decide)⟩,
   ⟨by decide,
    (c2_try_add_strong_cas (dispose { CBState.init with shared_count := 0 })).2.2.1
      (by decide)⟩⟩

/-! ### Shared and weak pointer handles (shared_ptr.hpp, weak_ptr.hpp)

A world holds one control block (`CBState`); a handle records its cached
raw pointer `ptr_` (an abstract address or null) and whether its
`ctrl_block_` references that block. -/

/-- A `shared_ptr<T>` handle: `ptr_` and `ctrl_block_`. -/
structure SP where
  ptr : Option Nat
  hasBlock : Bool
  deriving Repr, DecidableEq

/-- The default / null `shared_ptr` (both members null). -/
def SP.null : SP := ⟨none, false⟩

/-- A `weak_ptr<T>` handle: `ptr_` and `ctrl_block_`. -/
structure WP where
  ptr : Option Nat
  hasBlock : Bool
  deriving Repr, DecidableEq

/-- The default / null `weak_ptr`. -/
def WP.null : WP := ⟨none, false⟩

/-- `shared_ptr` copy construction: copy both members, then
`add_shared_ref()` if a block is held. -/
def sp_copy (sp : SP) (w : CBState) : SP × CBState :=
  (⟨sp.ptr, sp.hasBlock⟩, if sp.hasBlock then add_shared_ref w else w)

/-- `~shared_ptr()`: `release_shared()` if a block is held. -/
def sp_destructor (sp : SP) (w : CBState) : CBState :=
  if sp.hasBlock then release_shared w else w

/-- `shared_ptr` move construction: steal both members, null the source;
no counter operation.  Returns (target, moved-from source) and the world. -/
def sp_move (src : SP) (w : CBState) : (SP × SP) × CBState :=
  ((⟨src.ptr, src.hasBlock⟩, SP.null), w)

/-- `shared_ptr::operator=(shared_ptr&&)`:
`shared_ptr(std::move(other)).swap(*this)`; the temporary — now holding
the target's previous members — is destroyed at the end of the statement.
Returns (new target, moved-from source) and the world. -/
def sp_move_assign (this other : SP) (w : CBState) : (SP × SP) × CBState :=
  ((⟨other.ptr, other.hasBlock⟩, SP.null), sp_destructor this w)

/-- `shared_ptr::operator=(const shared_ptr&)`:
`shared_ptr(other).swap(*this)`; the temporary — holding the target's
previous members after the swap — is destroyed at the end. -/
def sp_copy_assign (this other : SP) (w : CBState) : SP × CBState :=
  let (tmp, w1) := sp_copy other w
  (tmp, sp_destructor this w1)

/-- `shared_ptr::reset()`: `shared_ptr().swap(*this)`. -/
def sp_reset (this : SP) (w : CBState) : SP × CBState :=
  (SP.null, sp_destructor this w)

/-- `shared_ptr::use_count()`. -/
def sp_use_count (sp : SP) (w : CBState) : Nat :=
  if sp.hasBlock then use_count w else 0

/-- World after `n` successive copies of the same handle. -/
def sp_copyN (sp : SP) (w : CBState) : Nat → CBState
  | 0 => w
  | n + 1 => (sp_copy sp (sp_copyN sp w n)).2

/-- `weak_ptr` construction from a `shared_ptr`: copy both members, then
`add_weak_ref()` if a block is held. -/
def wp_from_shared (sp : SP) (w : CBState) : WP × CBState :=
  (⟨sp.ptr, sp.hasBlock⟩, if sp.hasBlock then add_weak_ref w else w)

/-- `weak_ptr` copy construction. -/
def wp_copy (wp : WP) (w : CBState) : WP × CBState :=
  (⟨wp.ptr, wp.hasBlock⟩, if wp.hasBlock then add_weak_ref w else w)

/-- `weak_ptr` move construction: steal members, null the source; no
counter operation. -/
def wp_move (src : WP) (w : CBState) : (WP × WP) × CBState :=
  ((⟨src.ptr, src.hasBlock⟩, WP.null), w)

/-- `~weak_ptr()`: `release_weak()` if a block is held. -/
def wp_destructor (wp : WP) (w : CBState) : CBState :=
  if wp.hasBlock then release_weak w else w

/-- `weak_ptr::use_count()`. -/
def wp_use_count (wp : WP) (w : CBState) : Nat :=
  if wp.hasBlock then use_count w else 0

/-- `weak_ptr::expired()`: `use_count() == 0`. -/
def wp_expired (wp : WP) (w : CBState) : Bool :=
  wp_use_count wp w = 0

/-- `weak_ptr::lock()`: if a block is held and `try_add_shared_ref()`
succeeds, a handle with the stored pointer; otherwise a default
`shared_ptr`.  Never throws. -/
def wp_lock (wp : WP) (w : CBState) : SP × CBState :=
  if wp.hasBlock then
    match try_add_shared_ref w with
    | (true, w') => (⟨wp.ptr, true⟩, w')
    | (false, w') => (SP.null, w')
  else (SP.null, w)

/-- `shared_ptr::shared_ptr(const weak_ptr<U>&)` (weak_ptr.hpp, lines
128-134): copy both members; if a block is held and
`try_add_shared_ref()` fails, throw `bad_weak_ptr`. -/
def sp_from_weak (wp : WP) (w : CBState) : Except Unit (SP × CBState) :=
  if wp.hasBlock then
    match try_add_shared_ref w with
    | (true, w') => Except.ok (⟨wp.ptr, true⟩, w')
    | (false, _) => Except.error ()
  else Except.ok (⟨wp.ptr, false⟩, w)

/-- Whether the upgrade raised `bad_weak_ptr`. -/
def raisesBadWeak (r : Except Unit (SP × CBState)) : Bool :=
  match r with
  | .error _ => true
  | .ok _ => false

theorem release_shared_shared_count (w : CBState) :
    (release_shared w).shared_count = w.shared_count - 1 := by
  by_cases h : w.shared_count = 1 <;>
    by_cases hw : w.weak_count = 1 <;>
    simp [release_shared, release_weak, dispose, destroy, h, hw]

theorem sp_copyN_shared_count (sp : SP) (w : CBState) (hb : sp.hasBlock = true) :
    ∀ N : Nat, (sp_copyN sp w N).shared_count = w.shared_count + N := by
  intro N
  induction N with
  | zero => rfl
  | succ n ih =>
    simp only [sp_copyN, sp_copy, hb, if_pos, add_shared_ref, ih]
    omega

/-- **C3**: a copy of a non-empty `shared_ptr` shares its members, so the
original and every copy observe the same count; after `N` copies that
count is the original count plus `N`; destroying or resetting one copy
brings the count observed through the remaining handles down by exactly
one. -/
theorem c3_use_count_after_copies (sp : SP) (w : CBState) (N : Nat)
    (hb : sp.hasBlock = true) (hc : 1 ≤ w.shared_count) :
    (sp_copy sp w).1 = sp ∧
    sp_use_count sp (sp_copyN sp w N) = w.shared_count + N ∧
    sp_use_count sp (sp_destructor sp (sp_copyN sp w N)) = w.shared_count + N - 1 ∧
    (sp_reset sp (sp_copyN sp w N)).2 = sp_destructor sp (sp_copyN sp w N) ∧
    1 ≤ w.shared_count + N := by
  refine ⟨rfl, ?_, ?_, rfl, by omega⟩
  · simp [sp_use_count, use_count, hb, sp_copyN_shared_count sp w hb N]
  · simp [sp_use_count, use_count, hb, sp_destructor,
      release_shared_shared_count, sp_copyN_shared_count sp w hb N]

/-- Witness for C3: a fresh pointer (count 1) copied twice is observed at
count 3 by the original, and destroying one copy brings it back to 2. -/
theorem c3_use_count_after_copies_witness :
    sp_use_count ⟨some 0, true⟩ (sp_copyN ⟨some 0, true⟩ CBState.init 2) =
      CBState.init.shared_count + 2 ∧
    sp_use_count ⟨some 0, true⟩
        (sp_destructor ⟨some 0, true⟩ (sp_copyN ⟨some 0, true⟩ CBState.init 2)) =
      CBState.init.shared_count + 2 - 1 :=
  ⟨(c3_use_count_after_copies ⟨some 0, true⟩ CBState.init 2 rfl (by decide)).2.1,
   (c3_use_count_after_copies ⟨some 0, true⟩ CBState.init 2 rfl (by decide)).2.2.1⟩

/-- Counterexample to **C4** as stated: move *assignment* onto a
non-empty target does change an atomic counter — the swap-with-temporary
idiom releases the target's previous ownership, here dropping the block's
strong count from 1 to 0 (and disposing the object). -/
theorem c4_counterexample :
    ¬ ((sp_move_assign ⟨some 0, true⟩ SP.null CBState.init).2.shared_count =
        CBState.init.shared_count ∧
       (sp_move_assign ⟨some 0, true⟩ SP.null CBState.init).2.disposeCount =
        CBState.init.disposeCount) := by
  decide

/-- **C4 (amended)**: move construction of a `shared_ptr` or `weak_ptr`
performs no counter operation and leaves the source empty; move
assignment nulls the source and performs no counter operation on the
source's block — its only counter effect is destroying the temporary that
carries the target's previous members (a `release_shared` on the target's
old block), so when the target was empty no counter changes at all. -/
theorem c4_move_semantics (sp this other : SP) (wp : WP) (w : CBState) :
    sp_move sp w = ((sp, SP.null), w) ∧
    wp_move wp w = ((wp, WP.null), w) ∧
    (sp_move_assign this other w).1.1 = other ∧
    (sp_move_assign this other w).1.2 = SP.null ∧
    (sp_move_assign this other w).2 = sp_destructor this w ∧
    (this.hasBlock = false → (sp_move_assign this other w).2 = w) := by
  refine ⟨rfl, rfl, rfl, rfl, rfl, ?_⟩
  intro h
  simp [sp_move_assign, sp_destructor, h]

/-- Witness for C4 (amended): an empty target assigned from a live source
moves the handle with no counter traffic. -/
theorem c4_move_semantics_witness :
    (sp_move_assign SP.null ⟨some 0, true⟩ CBState.init).2 = CBState.init :=
  (c4_move_semantics SP.null SP.null ⟨some 0, true⟩ WP.null CBState.init).2.2.2.2.2 rfl

/-- **C5**: constructing a `shared_ptr` from a block-holding `weak_ptr`
throws `bad_weak_ptr` exactly when the block has already disposed its
object (equivalently, under the lifetime invariant, when its strong count
is zero); `lock()` on the same `weak_ptr` never throws — on a dead target
it returns the default (empty) handle, and on a live target it returns a
handle whose acquisition incremented the strong count by exactly one. -/
theorem c5_upgrade_vs_lock (wp : WP) (w : CBState)
    (hb : wp.hasBlock = true) (hinv : SafeInv w) :
    (raisesBadWeak (sp_from_weak wp w) = true ↔ w.disposeCount = 1) ∧
    (raisesBadWeak (sp_from_weak wp w) = true ↔ w.shared_count = 0) ∧
    (w.shared_count = 0 → wp_lock wp w = (SP.null, w)) ∧
    (1 ≤ w.shared_count →
        wp_lock wp w = (⟨wp.ptr, true⟩, add_shared_ref w) ∧
        (wp_lock wp w).2.shared_count = w.shared_count + 1) := by
  have hiff : w.disposeCount = 1 ↔ w.shared_count = 0 := by
    rcases hinv with ⟨h1, _, h3, _, _⟩ | ⟨h1, _, h3, _, _⟩ | ⟨h1, _, h3, _, _⟩ <;>
      (simp [h1, h3]; try omega)
  by_cases hs : w.shared_count = 0
  · refine ⟨?_, ?_, ?_, ?_⟩
    · simp [sp_from_weak, try_add_shared_ref, raisesBadWeak, hb, hs, hiff]
    · simp [sp_from_weak, try_add_shared_ref, raisesBadWeak, hb, hs]
    · intro _
      simp [wp_lock, try_add_shared_ref, hb, hs]
    · intro hlive
      omega
  · refine ⟨?_, ?_, ?_, ?_⟩
    · simp [sp_from_weak, try_add_shared_ref, raisesBadWeak, hb, hs, hiff]
    · simp [sp_from_weak, try_add_shared_ref, raisesBadWeak, hb, hs]
    · intro h0
      exact absurd h0 hs
    · intro _
      constructor
      · simp [wp_lock, try_add_shared_ref, hb, hs, add_shared_ref]
      · simp [wp_lock, try_add_shared_ref, hb, hs]

/-- Witness for C5: locking a live block (count 1) yields count 2, and
upgrading a disposed block (count 0) throws while `lock` stays silent. -/
theorem c5_upgrade_vs_lock_witness :
    ((wp_lock ⟨some 0, true⟩ CBState.init).2.shared_count =
        CBState.init.shared_count + 1) ∧
    (raisesBadWeak
        (sp_from_weak ⟨some 0, true⟩
          (dispose { CBState.init with shared_count := 0 })) = true) ∧
    (wp_lock ⟨some 0, true⟩ (dispose { CBState.init with shared_count := 0 }) =
        (SP.null, dispose { CBState.init with shared_count := 0 })) :=
  ⟨((c5_upgrade_vs_lock ⟨some 0, true⟩ CBState.init rfl safeInv_init).2.2.2
      (by decide)).2,
   ((c5_upgrade_vs_lock ⟨some 0, true⟩ (dispose { CBState.init with shared_count := 0 })
      rfl (Or.inr (Or.inl (by decide)))).2.1).mpr (by decide),
   (c5_upgrade_vs_lock ⟨some 0, true⟩ (dispose { CBState.init with shared_count := 0 })
      rfl (Or.inr (Or.inl (by decide)))).2.2.1 (by decide)⟩

/-- **C7**: `expired()` is `use_count() == 0` (an empty handle counts as
0); for a handle observing a managed object it is false while any strong
holder remains, and flips to true exactly when the last `shared_ptr` is
destroyed or reset. -/
theorem c7_expired_iff_count_zero (wp : WP) (sp : SP) (w : CBState)
    (hb : wp.hasBlock = true) (hsb : sp.hasBlock = true)
    (hc : 1 ≤ w.shared_count) :
    (∀ (wq : WP) (v : CBState), wp_expired wq v = true ↔ wp_use_count wq v = 0) ∧
    wp_expired wp w = false ∧
    (wp_expired wp (sp_destructor sp w) = true ↔ w.shared_count = 1) ∧
    (wp_expired wp (sp_reset sp w).2 = true ↔ w.shared_count = 1) := by
  have hkey : ∀ v : CBState, wp_expired wp v = decide (v.shared_count = 0) := by
    intro v
    simp [wp_expired, wp_use_count, use_count, hb]
  refine ⟨?_, ?_, ?_, ?_⟩
  · intro wq v
    simp [wp_expired]
  · simp only [hkey, decide_eq_false_iff_not]
    omega
  · simp only [hkey, sp_destructor, hsb, if_pos, release_shared_shared_count,
      decide_eq_true_eq]
    omega
  · simp only [hkey, sp_reset, sp_destructor, hsb, if_pos,
      release_shared_shared_count, decide_eq_true_eq]
    omega

/-- Witness for C7: one strong holder, one weak observer; before the
destruction `expired()` is false, after it is true. -/
theorem c7_expired_iff_count_zero_witness :
    wp_expired ⟨some 0, true⟩ CBState.init = false ∧
    wp_expired ⟨some 0, true⟩ (sp_destructor ⟨some 0, true⟩ CBState.init) = true :=
  ⟨(c7_expired_iff_count_zero ⟨some 0, true⟩ ⟨some 0, true⟩ CBState.init rfl rfl
      (by decide)).2.1,
   (c7_expired_iff_count_zero ⟨some 0, true⟩ ⟨some 0, true⟩ CBState.init rfl rfl
      (by decide)).2.2.1.mpr rfl⟩

/-- **C9**: a default-constructed (blockless) `weak_ptr` reports
`expired() == true`, yet constructing a `shared_ptr` from it does not
throw — it yields the empty handle; `bad_weak_ptr` is raised exactly for
weak handles that reference a control block whose strong count is zero. -/
theorem c9_default_weak_no_throw (wp : WP) (w : CBState) :
    wp_expired WP.null w = true ∧
    sp_from_weak WP.null w = Except.ok (SP.null, w) ∧
    (raisesBadWeak (sp_from_weak wp w) = true ↔
        (wp.hasBlock = true ∧ w.shared_count = 0)) := by
  refine ⟨?_, ?_, ?_⟩
  · simp [wp_expired, wp_use_count, WP.null]
  · simp [sp_from_weak, WP.null, SP.null]
  · by_cases hb : wp.hasBlock <;> by_cases hs : w.shared_count = 0 <;>
      simp [sp_from_weak, try_add_shared_ref, raisesBadWeak, hb, hs]

/-- **C10**: copy assignment is self-assignment safe — `s = s` leaves the
cached raw pointer, the control-block reference, and the block state
(strong count, dispose history) all unchanged: the temporary's extra
reference keeps the pre-decrement count above 1, so the object is never
disposed. -/
theorem c10_self_assignment_safe (s : SP) (w : CBState)
    (h : s.hasBlock = true → 1 ≤ w.shared_count) :
    sp_copy_assign s s w = (s, w) := by
  obtain ⟨sptr, shb⟩ := s
  cases shb with
  | false => simp [sp_copy_assign, sp_copy, sp_destructor]
  | true =>
    have h1 : 1 ≤ w.shared_count := h rfl
    have h2 : ¬ (w.shared_count + 1 = 1) := by omega
    simp [sp_copy_assign, sp_copy, sp_destructor, release_shared,
      add_shared_ref, h2]

/-- Witness for C10: self-assigning the sole owner of a fresh block
changes nothing and does not dispose. -/
theorem c10_self_assignment_safe_witness :
    sp_copy_assign ⟨some 0, true⟩ ⟨some 0, true⟩ CBState.init =
      (⟨some 0, true⟩, CBState.init) :=
  c10_self_assignment_safe ⟨some 0, true⟩ CBState.init (fun _ => by decide)

/-! ### Allocation-failure paths (memory.hpp, shared_ptr.hpp) — claim C6

A heap ledger tracks which allocations are currently live; `none` as a
function result means the exception propagated to the caller. -/

/-- Allocation ledger: the next fresh id and the ids currently live. -/
structure Heap where
  next : Nat
  live : List Nat
  deriving Repr, DecidableEq

/-- Obtain a fresh allocation. -/
def halloc (h : Heap) : Nat × Heap :=
  (h.next, ⟨h.next + 1, h.next :: h.live⟩)

/-- Release an allocation. -/
def hfree (a : Nat) (h : Heap) : Heap :=
  { h with live := h.live.erase a }

/-- `make_shared` (memory.hpp, lines 26-33):
`new inline_control_block<T>(args...)`.  If the allocation itself fails,
`bad_alloc` propagates with nothing held; if `T`'s constructor throws
inside the new-expression, the language runtime frees the storage before
the exception propagates. -/
def make_shared (allocFails ctorFails : Bool) (h : Heap) : Option Nat × Heap :=
  if allocFails then (none, h)
  else
    let (cb, h1) := halloc h
    if ctorFails then (none, hfree cb h1)
    else (some cb, h1)

/-- `allocate_shared` (memory.hpp, lines 36-59): allocate the block from
the rebound allocator; `construct` it under a `try` whose `catch`
deallocates and rethrows. -/
def allocate_shared (allocFails ctorFails : Bool) (h : Heap) : Option Nat × Heap :=
  if allocFails then (none, h)
  else
    let (cb, h1) := halloc h
    if ctorFails then (none, hfree cb h1)
    else (some cb, h1)

/-- `shared_ptr::shared_ptr(U* ptr)` (shared_ptr.hpp, lines 39-41): the
adopted object `p` is already live; `make_control_block` performs
`new separate_control_block(...)` (a `noexcept` constructor, so only the
allocation can fail).  There is no handler: on `bad_alloc` the exception
propagates with no cleanup code running, so `p` stays allocated with no
owner. -/
def shared_ptr_from_raw (p : Nat) (cbAllocFails : Bool) (h : Heap) :
    Option (Nat × Nat) × Heap :=
  if cbAllocFails then (none, h)
  else
    let (cb, h1) := halloc h
    (some (p, cb), h1)

/-- **C6** at the failing input: both factory functions release their
storage before an allocation/construction failure propagates, but the
raw-pointer constructor does not — when the control-block allocation
fails for `shared_ptr(new T)` (adopted object id 0), the error propagates
while id 0 is still allocated and no handle owns it: the adopted object
leaks, contradicting the claim. -/
theorem c6_raw_ctor_leaks_adopted_object :
    (make_shared true false ⟨0, []⟩).2.live = [] ∧
    (make_shared false true ⟨0, []⟩).2.live = [] ∧
    (allocate_shared true false ⟨0, []⟩).2.live = [] ∧
    (allocate_shared false true ⟨0, []⟩).2.live = [] ∧
    (shared_ptr_from_raw 0 true ⟨1, [0]⟩).1 = none ∧
    (shared_ptr_from_raw 0 true ⟨1, [0]⟩).2.live = [0] := by
  decide

/-! ### Exclusive pointer (unique_ptr.hpp) — claim C8

The deleter is observed through an invocation log of the addresses it was
called on. -/

/-- A `unique_ptr<T>` handle: the owned pointer (or null). -/
structure UP where
  ptr : Option Nat
  deriving Repr, DecidableEq

/-- The empty `unique_ptr`. -/
def UP.null : UP := ⟨none⟩

/-- `unique_ptr::release()` (lines 78-82): return the held pointer, null
the handle; the deleter is not invoked. -/
def up_release (u : UP) (dlog : List Nat) : Option Nat × UP × List Nat :=
  (u.ptr, UP.null, dlog)

/-- `unique_ptr::reset(p)` (lines 84-90): save the old pointer, adopt
`p`, then invoke the deleter on the old pointer if it was non-null. -/
def up_reset (u : UP) (p : Option Nat) (dlog : List Nat) : UP × List Nat :=
  let old := u.ptr
  (⟨p⟩,
    match old with
    | some o => dlog ++ [o]
    | none => dlog)

/-- `unique_ptr::get()`. -/
def up_get (u : UP) : Option Nat := u.ptr

/-- `unique_ptr::operator bool()`. -/
def up_bool (u : UP) : Bool := u.ptr.isSome

/-- **C8**: on an owning handle, `release()` empties the handle and
returns the held raw pointer without invoking the deleter, and
`release()` followed by `reset(released_pointer)` restores the original
observable state — the same single handle owns the same address, the
deleter never ran, so the address is never doubly managed. -/
theorem c8_release_reset_roundtrip (u : UP) (dlog : List Nat) (p : Nat)
    (h : u.ptr = some p) :
    (up_release u dlog).1 = some p ∧
    (up_release u dlog).2.1 = UP.null ∧
    (up_release u dlog).2.2 = dlog ∧
    up_reset (up_release u dlog).2.1 (up_release u dlog).1
        (up_release u dlog).2.2 = (u, dlog) ∧
    up_get (up_reset (up_release u dlog).2.1 (up_release u dlog).1
        (up_release u dlog).2.2).1 = up_get u ∧
    up_bool (up_reset (up_release u dlog).2.1 (up_release u dlog).1
        (up_release u dlog).2.2).1 = up_bool u := by
  obtain ⟨uptr⟩ := u
  simp only at h
  subst h
  simp [up_release, up_reset, up_get, up_bool, UP.null]

/-- Witness for C8: releasing and re-adopting address 5. -/
theorem c8_release_reset_roundtrip_witness :
    (up_release ⟨some 5⟩ []).1 = some 5 ∧
    (up_release ⟨some 5⟩ []).2.1 = UP.null ∧
    (up_release ⟨some 5⟩ []).2.2 = ([] : List Nat) ∧
    up_reset (up_release ⟨some 5⟩ []).2.1 (up_release ⟨some 5⟩ []).1
        (up_release ⟨some 5⟩ []).2.2 = (⟨some 5⟩, ([] : List Nat)) ∧
    up_get (up_reset (up_release ⟨some 5⟩ []).2.1 (up_release ⟨some 5⟩ []).1
        (up_release ⟨some 5⟩ []).2.2).1 = up_get ⟨some 5⟩ ∧
    up_bool (up_reset (up_release ⟨some 5⟩ []).2.1 (up_release ⟨some 5⟩ []).1
        (up_release ⟨some 5⟩ []).2.2).1 = up_bool ⟨some 5⟩ :=
  c8_release_reset_roundtrip ⟨some 5⟩ [] 5 rfl
